import Mathlib

/-!
Verification of the learning-tensorflow notebooks.

Part 1 models the `tf.Variable` semantics demonstrated in
`Variables.ipynb`: a variable is a named, mutable cell holding a tensor;
its dtype and shape are fixed at construction; `assign` validates shape
and dtype; `tf.reshape` copies rather than mutates; constructing a
variable from a variable duplicates the backing tensor; `==` is
elementwise.  Mutable state is embedded as an explicit store (list of
cells) threaded through the operations.

Part 2 models the Quickstart notebook: pixel normalization, the
beginner sequential model (Flatten / Dense relu / Dropout / Dense),
softmax over idealized reals, and the expert training loop with its
Mean / SparseCategoricalAccuracy metrics, `train_step`, `test_step`
and the five-epoch loop that resets the metrics at the start of every
epoch.  Framework internals (the network forward pass, the gradient
tape, the Adam update) are external to the repository and appear as
parameters of the loop; the loop structure itself is the code under
study.
-/

/-- Element dtypes used in the Variables notebook. -/
inductive DType where
  | int32
  | float32
  | boolean
  | complex128
deriving DecidableEq, Repr

/-- A scalar element of a tensor.  Python ints are unbounded here;
overflow plays no role in any claim checked below.  Floats are
idealized as rationals, complex numbers as pairs of rationals. -/
inductive Val where
  | vi (z : Int)
  | vf (q : Rat)
  | vb (b : Bool)
  | vc (re im : Rat)
deriving DecidableEq, Repr

/-- The dtype TensorFlow infers for a Python literal element. -/
def Val.inferDType : Val → DType
  | .vi _ => .int32
  | .vf _ => .float32
  | .vb _ => .boolean
  | .vc _ _ => .complex128

/-- Implicit conversion of one element to a target dtype, as performed
by `convert_to_tensor`: ints widen to float32 or complex128, floats
widen to complex128, but a float does not implicitly narrow to int32
(the notebook shows this raising `TypeError`), and bool converts to
nothing. -/
def castTo (d : DType) : Val → Option Val
  | .vi z =>
    match d with
    | .int32 => some (.vi z)
    | .float32 => some (.vf (z : Rat))
    | .complex128 => some (.vc (z : Rat) 0)
    | .boolean => none
  | .vf q =>
    match d with
    | .float32 => some (.vf q)
    | .complex128 => some (.vc q 0)
    | _ => none
  | .vb b =>
    match d with
    | .boolean => some (.vb b)
    | _ => none
  | .vc re im =>
    match d with
    | .complex128 => some (.vc re im)
    | _ => none

/-- Convert a whole buffer of elements to a dtype; fails if any element
fails. -/
def castData (d : DType) : List Val → Option (List Val)
  | [] => some []
  | v :: vs =>
    match castTo d v, castData d vs with
    | some w, some ws => some (w :: ws)
    | _, _ => none

/-- An immutable tensor: dtype, shape and flat row-major data. -/
structure Tensor where
  dtype : DType
  shape : List Nat
  data : List Val
deriving DecidableEq, Repr

/-- One variable cell: the state behind a `tf.Variable` handle. -/
structure VarCell where
  name : String
  dtype : DType
  shape : List Nat
  data : List Val
  trainable : Bool
deriving DecidableEq, Repr

/-- The store of all live variables; a variable handle is an index. -/
abbrev Store := List VarCell

/-- Errors raised by variable assignment in the notebook. -/
inductive TFError where
  | ValueError
  | TypeError
deriving DecidableEq, Repr

/-- `tf.Variable(initial_value, name, trainable)`: the initial value
defines the dtype and the shape of the new variable. -/
def tfVariable (s : Store) (t : Tensor) (name : String) (trainable : Bool) :
    Store × Nat :=
  (s ++ [⟨name, t.dtype, t.shape, t.data, trainable⟩], s.length)

/-- `tf.Variable(other_variable)`: duplicates the backing tensor into a
fresh cell; the two variables share no memory. -/
def tfVariableFromVar (s : Store) (r : Nat) (name : String) :
    Option (Store × Nat) :=
  (s.get? r).map fun c =>
    (s ++ [⟨name, c.dtype, c.shape, c.data, true⟩], s.length)

/-- Read a variable as a tensor (`tf.convert_to_tensor`/`read_value`). -/
def readVar (s : Store) (r : Nat) : Option Tensor :=
  (s.get? r).map fun c => ⟨c.dtype, c.shape, c.data⟩

/-- The data currently held by a variable. -/
def varValue (s : Store) (r : Nat) : Option (List Val) :=
  (s.get? r).map VarCell.data

/-- `tf.Variable.assign`: the value is first converted to the
variable's dtype (`TypeError` on failure), then its shape must equal
the variable's shape (`ValueError` otherwise); on success only the data
of the cell changes. -/
def assign (s : Store) (r : Nat) (v : Tensor) : Except TFError Store :=
  match s.get? r with
  | none => .error .ValueError
  | some c =>
    match castData c.dtype v.data with
    | none => .error .TypeError
    | some data2 =>
      if v.shape = c.shape then
        .ok (s.set r { c with data := data2 })
      else
        .error .ValueError

/-- Elementwise addition of two elements of the same dtype. -/
def Val.add : Val → Val → Option Val
  | .vi a, .vi b => some (.vi (a + b))
  | .vf a, .vf b => some (.vf (a + b))
  | .vc a b, .vc c d => some (.vc (a + c) (b + d))
  | _, _ => none

/-- Elementwise subtraction of two elements of the same dtype. -/
def Val.sub : Val → Val → Option Val
  | .vi a, .vi b => some (.vi (a - b))
  | .vf a, .vf b => some (.vf (a - b))
  | .vc a b, .vc c d => some (.vc (a - c) (b - d))
  | _, _ => none

/-- Zip two buffers with a fallible elementwise operation. -/
def zipValsWith (f : Val → Val → Option Val) : List Val → List Val → Option (List Val)
  | [], [] => some []
  | a :: as_, b :: bs =>
    match f a b, zipValsWith f as_ bs with
    | some c, some cs => some (c :: cs)
    | _, _ => none
  | _, _ => none

/-- `tf.Variable.assign_add` / `assign_sub`: convert, check shape,
combine elementwise with the current data. -/
def assignCombine (f : Val → Val → Option Val) (s : Store) (r : Nat)
    (v : Tensor) : Except TFError Store :=
  match s.get? r with
  | none => .error .ValueError
  | some c =>
    match castData c.dtype v.data with
    | none => .error .TypeError
    | some data2 =>
      if v.shape = c.shape then
        match zipValsWith f c.data data2 with
        | some data3 => .ok (s.set r { c with data := data3 })
        | none => .error .TypeError
      else
        .error .ValueError

def assign_add (s : Store) (r : Nat) (v : Tensor) : Except TFError Store :=
  assignCombine Val.add s r v

def assign_sub (s : Store) (r : Nat) (v : Tensor) : Except TFError Store :=
  assignCombine Val.sub s r v

/-- The notebook wraps failing assignments in `try/except` and goes on
with the old state: an erroring assign leaves the store as it was. -/
def tryAssign (s : Store) (r : Nat) (v : Tensor) : Store :=
  match assign s r v with
  | .ok s2 => s2
  | .error _ => s

/-- `tf.reshape` on a tensor: a new tensor with the requested shape over
the same data (sizes must agree; the notebook uses no wildcard). -/
def tfReshape (t : Tensor) (sh : List Nat) : Option Tensor :=
  if t.data.length = sh.prod then some ⟨t.dtype, sh, t.data⟩ else none

/-- `tf.reshape(variable, sh)`: reads the variable as a tensor and
reshapes the copy.  The store is returned unchanged: reshape is not a
mutating operation on variables. -/
def reshapeVar (s : Store) (r : Nat) (sh : List Nat) :
    Store × Option Tensor :=
  (s, (readVar s r).bind fun t => tfReshape t sh)

/-- `a == b` on two variables: elementwise comparison producing a bool
tensor when the shapes agree (the notebook only compares same-shaped
variables, so broadcasting is not modelled). -/
def varEq (s : Store) (r1 r2 : Nat) : Option Tensor :=
  match s.get? r1, s.get? r2 with
  | some c1, some c2 =>
    if c1.shape = c2.shape then
      some ⟨.boolean, c1.shape, List.zipWith (fun a b => Val.vb (a = b)) c1.data c2.data⟩
    else
      none
  | _, _ => none

/-! ## Part 2: the Quickstart notebook -/

/-- `x / 255.0` applied to one pixel (`mnist` pixels are 0..255). -/
def normalizePixel (p : Nat) : Rat := (p : Rat) / 255

/-- `x_train / 255.0`: the normalization applied to a whole image. -/
def normalizeImage (img : List Nat) : List Rat := img.map normalizePixel

/-- `relu` activation. -/
def relu (x : Rat) : Rat := max x 0

/-- `tf.keras.layers.Flatten`: a 28x28 image becomes one flat vector. -/
def flattenLayer (img : List (List Rat)) : List Rat := img.flatten

/-- `tf.keras.layers.Dense(units, activation)`: one output per
weight-row/bias pair, `act (w . x + b)`. -/
def denseLayer (W : List (List Rat)) (b : List Rat) (act : Rat → Rat)
    (x : List Rat) : List Rat :=
  List.zipWith (fun w bi => act ((List.zipWith (· * ·) w x).sum + bi)) W b

/-- `tf.keras.layers.Dropout(rate)`: identity at inference; during
training, kept units are scaled by `1 / (1 - rate)` and dropped units
zeroed, the drop pattern given by a mask. -/
def dropoutLayer (rate : Rat) (mask : List Bool) (training : Bool)
    (x : List Rat) : List Rat :=
  if training then
    List.zipWith (fun keep v => if keep then v / (1 - rate) else 0) mask x
  else
    x

/-- The beginner Quickstart model:
`Sequential([Flatten(input_shape=(28,28)), Dense(128, relu), Dropout(0.2), Dense(10)])`.
The layer parameters (created by Keras with 128 resp. 10 units) are
explicit arguments; the dropout mask stands for the framework's
randomness. -/
def beginnerModel (W1 : List (List Rat)) (b1 : List Rat)
    (W2 : List (List Rat)) (b2 : List Rat)
    (training : Bool) (mask : List Bool) (img : List (List Rat)) : List Rat :=
  denseLayer W2 b2 id
    (dropoutLayer (2/10) mask training
      (denseLayer W1 b1 relu
        (flattenLayer img)))

/-- `tf.nn.softmax` over idealized reals (the float32 arithmetic of the
notebook is modelled by exact real arithmetic). -/
noncomputable def softmax (xs : List Real) : List Real :=
  xs.map fun x => Real.exp x / (xs.map Real.exp).sum

/-! ### The expert Quickstart training loop -/

/-- `tf.keras.metrics.Mean`: accumulates a running total and a count;
`result` is their quotient, `reset_states` zeroes both. -/
structure MeanMetric where
  total : Rat
  count : Nat
deriving DecidableEq, Repr

def MeanMetric.reset_states (_ : MeanMetric) : MeanMetric := ⟨0, 0⟩

def MeanMetric.update (m : MeanMetric) (v : Rat) : MeanMetric :=
  ⟨m.total + v, m.count + 1⟩

def MeanMetric.result (m : MeanMetric) : Rat := m.total / (m.count : Rat)

/-- Index of the first maximal entry of a logits vector (`argmax`). -/
def argmaxIdx (xs : List Rat) : Nat :=
  match xs.foldl
      (fun acc v =>
        match acc with
        | (best, i) =>
          match best with
          | none => (some (i, v), i + 1)
          | some (bi, bv) =>
            if bv < v then (some (i, v), i + 1) else (some (bi, bv), i + 1))
      (none, 0) with
  | (some (bi, _), _) => bi
  | (none, _) => 0

/-- Number of examples in a batch whose predicted class matches the
label. -/
def countCorrect (labels : List Nat) (preds : List (List Rat)) : Nat :=
  (List.zipWith (fun l p => if argmaxIdx p = l then 1 else 0) labels preds).sum

/-- `tf.keras.metrics.SparseCategoricalAccuracy`: running number of
correct predictions over running number of examples seen. -/
structure AccMetric where
  correct : Nat
  count : Nat
deriving DecidableEq, Repr

def AccMetric.reset_states (_ : AccMetric) : AccMetric := ⟨0, 0⟩

def AccMetric.update (m : AccMetric) (labels : List Nat)
    (preds : List (List Rat)) : AccMetric :=
  ⟨m.correct + countCorrect labels preds, m.count + labels.length⟩

def AccMetric.result (m : AccMetric) : Rat := (m.correct : Rat) / (m.count : Rat)

/-- The framework functionality the expert loop invokes: the model's
forward pass on one image, the `SparseCategoricalCrossentropy` batch
loss, `tape.gradient`, and the Adam `apply_gradients` update.  All four
live outside this repository; the loop is parametric in them.
Model parameters and optimizer slots are flat lists of rationals. -/
structure TFOps where
  model : List Rat → List Rat → List Rat
  loss_object : List Nat → List (List Rat) → Rat
  tapeGradient : List Rat → List (List Rat) → List Nat → List Rat
  apply_gradients : List Rat → List Rat → List Rat → List Rat × List Rat

/-- One batch produced by `tf.data`: images with their labels. -/
structure Batch where
  images : List (List Rat)
  labels : List Nat
deriving Repr

/-- The mutable state the expert cells share: the model's trainable
variables, the optimizer slots, and the four metrics. -/
structure ExpState where
  params : List Rat
  opt : List Rat
  train_loss : MeanMetric
  train_accuracy : AccMetric
  test_loss : MeanMetric
  test_accuracy : AccMetric
deriving DecidableEq, Repr

/-- `train_step(images, labels)`: under the tape, compute predictions
and the loss from the current parameters; take gradients and apply them
with the optimizer; then update the two training metrics with the loss
and predictions that were computed before the parameter update. -/
def train_step (ops : TFOps) (s : ExpState) (images : List (List Rat))
    (labels : List Nat) : ExpState :=
  let predictions := images.map (ops.model s.params)
  let loss := ops.loss_object labels predictions
  let gradients := ops.tapeGradient s.params images labels
  let applied := ops.apply_gradients s.opt s.params gradients
  { params := applied.2
    opt := applied.1
    train_loss := s.train_loss.update loss
    train_accuracy := s.train_accuracy.update labels predictions
    test_loss := s.test_loss
    test_accuracy := s.test_accuracy }

/-- `test_step(images, labels)`: forward pass and loss only; updates
the two test metrics. -/
def test_step (ops : TFOps) (s : ExpState) (images : List (List Rat))
    (labels : List Nat) : ExpState :=
  let predictions := images.map (ops.model s.params)
  let t_loss := ops.loss_object labels predictions
  { s with
    test_loss := s.test_loss.update t_loss
    test_accuracy := s.test_accuracy.update labels predictions }

/-- The four `reset_states` calls at the top of the epoch body. -/
def resetMetrics (s : ExpState) : ExpState :=
  { s with
    train_loss := s.train_loss.reset_states
    train_accuracy := s.train_accuracy.reset_states
    test_loss := s.test_loss.reset_states
    test_accuracy := s.test_accuracy.reset_states }

/-- The values the epoch's print statement displays. -/
structure EpochLog where
  loss : Rat
  accuracy : Rat
  testLoss : Rat
  testAccuracy : Rat
deriving DecidableEq, Repr

/-- Read the print line off a state. -/
def printLine (s : ExpState) : EpochLog :=
  ⟨s.train_loss.result, s.train_accuracy.result * 100,
    s.test_loss.result, s.test_accuracy.result * 100⟩

/-- The body of `for epoch in range(EPOCHS)`: reset the metrics, run
`train_step` on every training batch, run `test_step` on every test
batch, and print. -/
def runEpoch (ops : TFOps) (train_ds test_ds : List Batch) (s : ExpState) :
    ExpState × EpochLog :=
  let s1 := resetMetrics s
  let s2 := train_ds.foldl (fun st b => train_step ops st b.images b.labels) s1
  let s3 := test_ds.foldl (fun st b => test_step ops st b.images b.labels) s2
  (s3, printLine s3)

def EPOCHS : Nat := 5

/-- The whole epoch loop: `EPOCHS` iterations of `runEpoch`, collecting
the printed lines in order. -/
def trainingLoop (ops : TFOps) (train_ds test_ds : List Batch)
    (s : ExpState) : ExpState × List EpochLog :=
  (List.range EPOCHS).foldl
    (fun acc _ =>
      let step := runEpoch ops train_ds test_ds acc.1
      (step.1, acc.2 ++ [step.2]))
    (s, [])

/-- The epoch body as the spec reads it: metrics accumulate across
epochs, i.e. the same body WITHOUT the `reset_states` calls.  This
definition follows the spec's words, for comparison with `runEpoch`
which follows the code. -/
def runEpochSpecAccum (ops : TFOps) (train_ds test_ds : List Batch)
    (s : ExpState) : ExpState × EpochLog :=
  let s2 := train_ds.foldl (fun st b => train_step ops st b.images b.labels) s
  let s3 := test_ds.foldl (fun st b => test_step ops st b.images b.labels) s2
  (s3, printLine s3)

/-- The epoch loop under the spec's accumulate-across-epochs reading. -/
def trainingLoopSpecAccum (ops : TFOps) (train_ds test_ds : List Batch)
    (s : ExpState) : ExpState × List EpochLog :=
  (List.range EPOCHS).foldl
    (fun acc _ =>
      let step := runEpochSpecAccum ops train_ds test_ds acc.1
      (step.1, acc.2 ++ [step.2]))
    (s, [])

/-- `runEpoch` iterated recursively; used to state that the loop is
exactly five sequential epochs. -/
def runEpochs (ops : TFOps) (train_ds test_ds : List Batch) :
    Nat → ExpState → ExpState × List EpochLog
  | 0, s => (s, [])
  | n + 1, s =>
    let step := runEpoch ops train_ds test_ds s
    let rest := runEpochs ops train_ds test_ds n step.1
    (rest.1, step.2 :: rest.2)

/-! ## Concrete data from the notebook cells -/

/-- `my_tensor = tf.constant([[1.0, 2.0], [3.0, 4.0]])`. -/
def my_tensor : Tensor := ⟨.float32, [2, 2], [.vf 1, .vf 2, .vf 3, .vf 4]⟩

/-- `a = tf.Variable([[1, 2], [3, 4]])` from the assignment cell. -/
def aInt : Tensor := ⟨.int32, [2, 2], [.vi 1, .vi 2, .vi 3, .vi 4]⟩

def aStore : Store := (tfVariable [] aInt "Variable" true).1

/-- The rejected value `[1, 2, 3, 4]` (shape `(4,)`). -/
def flat4 : Tensor := ⟨.int32, [4], [.vi 1, .vi 2, .vi 3, .vi 4]⟩

/-- The rejected value `[[1.1, 2.2], [3.3, 4.4]]` (floats into int32). -/
def floatVals : Tensor :=
  ⟨.float32, [2, 2],
    [.vf (mkRat 11 10), .vf (mkRat 22 10), .vf (mkRat 33 10), .vf (mkRat 44 10)]⟩

/-- `b = tf.Variable([[1.1, 2.2], [3.3, 4.4]])`. -/
def bStore : Store := (tfVariable [] floatVals "Variable" true).1

/-- `my_tensor + 1`. -/
def my_tensor_plus1 : Tensor := ⟨.float32, [2, 2], [.vf 2, .vf 3, .vf 4, .vf 5]⟩

/-- `a = tf.Variable(my_tensor, name="my_variable")` then
`b = tf.Variable(my_tensor+1, name="my_variable")`. -/
def namedStore : Store :=
  (tfVariable (tfVariable [] my_tensor "my_variable" true).1
    my_tensor_plus1 "my_variable" true).1

def scalar1 : Tensor := ⟨.float32, [], [.vf 1]⟩

def scalar2 : Tensor := ⟨.float32, [], [.vf 2]⟩

def scalar3 : Tensor := ⟨.float32, [], [.vf 3]⟩

/-- The losses `train_step` records over one epoch's training batches,
starting from a given state (the parameters evolve batch to batch). -/
def epochBatchLosses (ops : TFOps) : List Batch → ExpState → List Rat
  | [], _ => []
  | b :: bs, s =>
    ops.loss_object b.labels (b.images.map (ops.model s.params)) ::
      epochBatchLosses ops bs (train_step ops s b.images b.labels)

/-- A tiny concrete instantiation of the framework parameters, used to
separate the code's per-epoch metrics from the spec's
accumulate-across-epochs reading: the loss equals the single parameter,
and each step increments it. -/
def cOps : TFOps :=
  { model := fun p _ => p
    loss_object := fun _ preds => (preds.headD []).headD 0
    tapeGradient := fun _ _ _ => [1]
    apply_gradients := fun o p g => (o, List.zipWith (fun a b => a + b) p g) }

def cState : ExpState := ⟨[0], [], ⟨0, 0⟩, ⟨0, 0⟩, ⟨0, 0⟩, ⟨0, 0⟩⟩

def cTrain : List Batch := [⟨[[0]], [0]⟩]

def cTest : List Batch := []

/-! ## Helper lemmas (shared) -/

instance {ε α : Type} [DecidableEq ε] [DecidableEq α] : DecidableEq (Except ε α) :=
  fun a b =>
    match a, b with
    | .ok x, .ok y =>
      if h : x = y then isTrue (by rw [h]) else isFalse (by simp [h])
    | .error e, .error f =>
      if h : e = f then isTrue (by rw [h]) else isFalse (by simp [h])
    | .ok _, .error _ => isFalse (by simp)
    | .error _, .ok _ => isFalse (by simp)

theorem castTo_dtype {d : DType} {v w : Val} (h : castTo d v = some w) :
    w.inferDType = d := by
  cases v <;> cases d <;> simp only [castTo, Option.some.injEq] at h <;>
    first
    | (subst h; rfl)
    | exact absurd h (by simp)

theorem castData_dtype {d : DType} {vs ws : List Val}
    (h : castData d vs = some ws) : ∀ w ∈ ws, w.inferDType = d := by
  induction vs generalizing ws with
  | nil => simp [castData] at h; subst h; simp
  | cons v vs ih =>
    simp only [castData] at h
    cases hv : castTo d v with
    | none => rw [hv] at h; simp at h
    | some w0 =>
      rw [hv] at h
      cases hvs : castData d vs with
      | none => rw [hvs] at h; simp at h
      | some ws0 =>
        rw [hvs] at h
        simp at h
        subst h
        intro w hw
        rcases List.mem_cons.mp hw with h1 | h2
        · exact h1 ▸ castTo_dtype hv
        · exact ih hvs w h2

theorem store_get_concat (l : Store) (c : VarCell) :
    (l ++ [c]).get? l.length = some c := by
  simp [List.get?_eq_getElem?]

theorem store_get_append_lt (l : Store) (c : VarCell) (i : Nat)
    (h : i < l.length) : (l ++ [c]).get? i = l.get? i := by
  simp [List.get?_eq_getElem?, List.getElem?_append_left h]

theorem store_set_get_self {s : Store} {r : Nat} {c c2 : VarCell}
    (h : s.get? r = some c) : (s.set r c2).get? r = some c2 := by
  have hlt : r < s.length := by
    rw [List.get?_eq_getElem?] at h
    exact (List.getElem?_eq_some.mp h).1
  simp [List.get?_eq_getElem?, List.getElem?_set_self, hlt]

theorem assign_ok_inv {s s2 : Store} {r : Nat} {v : Tensor}
    (h : assign s r v = .ok s2) :
    ∃ c d, s.get? r = some c ∧ castData c.dtype v.data = some d ∧
      v.shape = c.shape ∧ s2 = s.set r { c with data := d } := by
  unfold assign at h
  split at h
  · exact absurd h (by simp)
  · rename_i c hr
    split at h
    · exact absurd h (by simp)
    · rename_i d hd
      split at h
      · rename_i hs
        simp only [Except.ok.injEq] at h
        exact ⟨c, d, hr, hd, hs, h.symm⟩
      · exact absurd h (by simp)

theorem assign_frame {s s2 : Store} {r : Nat} {v : Tensor} {j : Nat}
    (h : assign s r v = .ok s2) (hj : j ≠ r) : s2.get? j = s.get? j := by
  obtain ⟨c, d, _, _, _, hset⟩ := assign_ok_inv h
  subst hset
  simp [List.get?_eq_getElem?, List.getElem?_set_ne (fun he => hj he.symm)]

theorem assignCombine_ok_inv {f : Val → Val → Option Val} {s s2 : Store}
    {r : Nat} {v : Tensor} (h : assignCombine f s r v = .ok s2) :
    ∃ c d d2, s.get? r = some c ∧ castData c.dtype v.data = some d ∧
      v.shape = c.shape ∧ zipValsWith f c.data d = some d2 ∧
      s2 = s.set r { c with data := d2 } := by
  unfold assignCombine at h
  split at h
  · exact absurd h (by simp)
  · rename_i c hr
    split at h
    · exact absurd h (by simp)
    · rename_i d hd
      split at h
      · rename_i hs
        split at h
        · rename_i d2 hz
          simp only [Except.ok.injEq] at h
          exact ⟨c, d, d2, hr, hd, hs, hz, h.symm⟩
        · exact absurd h (by simp)
      · exact absurd h (by simp)


/-! ## Claim theorems for the Variables notebook -/

/-- C2: for every `tf.Variable`, `assign` with a value of a different
shape, or with a value that cannot be cast to the variable's dtype,
raises an exception, and in either failing case the variable (indeed
the whole store) is unchanged. -/
theorem assign_invalid_raises_and_preserves (s : Store) (r : Nat)
    (c : VarCell) (v : Tensor) (hc : s.get? r = some c)
    (hbad : v.shape ≠ c.shape ∨ castData c.dtype v.data = none) :
    (∃ e, assign s r v = .error e) ∧ tryAssign s r v = s := by
  cases ha : assign s r v with
  | error e =>
    refine ⟨⟨e, rfl⟩, ?_⟩
    unfold tryAssign
    rw [ha]
  | ok s2 =>
    obtain ⟨c2, d, hc2, hd, hs, _⟩ := assign_ok_inv ha
    rw [hc] at hc2
    injection hc2 with hcc
    subst hcc
    rcases hbad with hb | hb
    · exact absurd hs hb
    · rw [hb] at hd
      exact absurd hd (by simp)

/-- Witness for C2 at the notebook's failing cells: the shape-mismatch
assign `a.assign([1, 2, 3, 4])` and the dtype-mismatch assign
`a.assign([[1.1, 2.2], [3.3, 4.4]])` both error and leave `a` as it
was. -/
theorem assign_invalid_raises_and_preserves_witness :
    (aStore.get? 0 =
      some ⟨ "Variable", .int32, [2, 2], [.vi 1, .vi 2, .vi 3, .vi 4], true⟩) ∧
    (flat4.shape ≠ [2, 2] ∨ castData .int32 flat4.data = none) ∧
    (castData .int32 floatVals.data = none) ∧
    ((∃ e, assign aStore 0 flat4 = .error e) ∧ tryAssign aStore 0 flat4 = aStore) ∧
    ((∃ e, assign aStore 0 floatVals = .error e) ∧
      tryAssign aStore 0 floatVals = aStore) := by
  refine ⟨by decide, by decide, by decide, ?_, ?_⟩
  · exact assign_invalid_raises_and_preserves aStore 0
      ⟨ "Variable", .int32, [2, 2], [.vi 1, .vi 2, .vi 3, .vi 4], true⟩
      flat4 (by decide) (Or.inl (by decide))
  · exact assign_invalid_raises_and_preserves aStore 0
      ⟨ "Variable", .int32, [2, 2], [.vi 1, .vi 2, .vi 3, .vi 4], true⟩
      floatVals (by decide) (Or.inr (by decide))

/-- C3: the dtype and shape of a variable are fixed at construction by
its initial value, every successful `assign` / `assign_add` /
`assign_sub` preserves them, and an assigned value of a different but
castable dtype is converted to the variable's dtype. -/
theorem variable_dtype_shape_fixed :
    (∀ (s : Store) (t : Tensor) (n : String) (tr : Bool),
      (tfVariable s t n tr).1.get? (tfVariable s t n tr).2 =
        some ⟨n, t.dtype, t.shape, t.data, tr⟩) ∧
    (∀ (s s2 : Store) (r : Nat) (v : Tensor) (c : VarCell),
      s.get? r = some c → assign s r v = .ok s2 →
      ∃ d, s2.get? r = some ⟨c.name, c.dtype, c.shape, d, c.trainable⟩ ∧
        castData c.dtype v.data = some d ∧ ∀ w ∈ d, w.inferDType = c.dtype) ∧
    (∀ (s s2 : Store) (r : Nat) (v : Tensor) (c : VarCell),
      s.get? r = some c → assign_add s r v = .ok s2 →
      ∃ c2, s2.get? r = some c2 ∧ c2.dtype = c.dtype ∧ c2.shape = c.shape) ∧
    (∀ (s s2 : Store) (r : Nat) (v : Tensor) (c : VarCell),
      s.get? r = some c → assign_sub s r v = .ok s2 →
      ∃ c2, s2.get? r = some c2 ∧ c2.dtype = c.dtype ∧ c2.shape = c.shape) := by
  refine ⟨?_, ?_, ?_, ?_⟩
  · intro s t n tr
    simp [tfVariable, store_get_concat]
  · intro s s2 r v c hc ha
    obtain ⟨c2, d, hc2, hd, hs, hset⟩ := assign_ok_inv ha
    rw [hc] at hc2
    injection hc2 with hcc
    subst hcc
    subst hset
    exact ⟨d, store_set_get_self hc, hd, castData_dtype hd⟩
  · intro s s2 r v c hc ha
    have ha2 : assignCombine Val.add s r v = .ok s2 := ha
    obtain ⟨c2, d, d2, hc2, _, _, _, hset⟩ := assignCombine_ok_inv ha2
    rw [hc] at hc2
    injection hc2 with hcc
    subst hcc
    subst hset
    exact ⟨{ c with data := d2 }, store_set_get_self hc, rfl, rfl⟩
  · intro s s2 r v c hc ha
    have ha2 : assignCombine Val.sub s r v = .ok s2 := ha
    obtain ⟨c2, d, d2, hc2, _, _, _, hset⟩ := assignCombine_ok_inv ha2
    rw [hc] at hc2
    injection hc2 with hcc
    subst hcc
    subst hset
    exact ⟨{ c with data := d2 }, store_set_get_self hc, rfl, rfl⟩

/-- Witness for C3 at the notebook's cell `b.assign([[1, 2], [3, 4]])`:
the int data is cast to the float32 variable's dtype; dtype and shape
survive. -/
theorem variable_dtype_shape_fixed_witness :
    (bStore.get? 0 =
      some ⟨ "Variable", .float32, [2, 2],
        [.vf (mkRat 11 10), .vf (mkRat 22 10), .vf (mkRat 33 10),
          .vf (mkRat 44 10)], true⟩) ∧
    (assign bStore 0 aInt =
      .ok [⟨ "Variable", .float32, [2, 2], [.vf 1, .vf 2, .vf 3, .vf 4], true⟩]) ∧
    ∃ d,
      ([⟨ "Variable", .float32, [2, 2], [.vf 1, .vf 2, .vf 3, .vf 4], true⟩] :
          Store).get? 0 = some ⟨ "Variable", .float32, [2, 2], d, true⟩ ∧
      castData .float32 aInt.data = some d ∧
      ∀ w ∈ d, w.inferDType = .float32 := by
  refine ⟨by decide, by decide, ?_⟩
  exact variable_dtype_shape_fixed.2.1 bStore
    [⟨ "Variable", .float32, [2, 2], [.vf 1, .vf 2, .vf 3, .vf 4], true⟩]
    0 aInt
    ⟨ "Variable", .float32, [2, 2],
      [.vf (mkRat 11 10), .vf (mkRat 22 10), .vf (mkRat 33 10),
        .vf (mkRat 44 10)], true⟩
    (by decide) (by decide)

/-- C6: `tf.reshape` on a variable returns a fresh tensor with the
requested shape over the variable's data and leaves the store -- in
particular the variable's shape and value -- untouched. -/
theorem reshape_leaves_variable_unchanged (s : Store) (r : Nat)
    (c : VarCell) (sh : List Nat) (hc : s.get? r = some c)
    (hlen : c.data.length = sh.prod) :
    (reshapeVar s r sh).1 = s ∧
    (reshapeVar s r sh).2 = some ⟨c.dtype, sh, c.data⟩ ∧
    (reshapeVar s r sh).1.get? r = some c := by
  refine ⟨rfl, ?_, hc⟩
  rw [List.get?_eq_getElem?] at hc
  simp [reshapeVar, readVar, hc, tfReshape, hlen]

/-- Witness for C6 at the notebook cell `tf.reshape(my_variable, [1,4])`:
the result is the `(1, 4)` tensor `[[1., 2., 3., 4.]]` and the variable
keeps shape `(2, 2)` and its value. -/
theorem reshape_leaves_variable_unchanged_witness :
    ((tfVariable [] my_tensor "Variable" true).1.get? 0 =
      some ⟨ "Variable", .float32, [2, 2], [.vf 1, .vf 2, .vf 3, .vf 4], true⟩) ∧
    (([.vf 1, .vf 2, .vf 3, .vf 4] : List Val).length = ([1, 4] : List Nat).prod) ∧
    (reshapeVar (tfVariable [] my_tensor "Variable" true).1 0 [1, 4]).1 =
      (tfVariable [] my_tensor "Variable" true).1 ∧
    (reshapeVar (tfVariable [] my_tensor "Variable" true).1 0 [1, 4]).2 =
      some ⟨.float32, [1, 4], [.vf 1, .vf 2, .vf 3, .vf 4]⟩ ∧
    (reshapeVar (tfVariable [] my_tensor "Variable" true).1 0 [1, 4]).1.get? 0 =
      some ⟨ "Variable", .float32, [2, 2], [.vf 1, .vf 2, .vf 3, .vf 4], true⟩ := by
  refine ⟨by decide, by decide, ?_⟩
  exact reshape_leaves_variable_unchanged
    (tfVariable [] my_tensor "Variable" true).1 0
    ⟨ "Variable", .float32, [2, 2], [.vf 1, .vf 2, .vf 3, .vf 4], true⟩
    [1, 4] (by decide) (by decide)

/-- C8: `tf.Variable(a)` duplicates the backing tensor: after
`b = tf.Variable(a)` both variables hold `a`'s data, and an `assign`
to either one leaves the other's value untouched -- they share no
state. -/
theorem variable_duplication_independent
    (s s1 s2 s3 s4 : Store) (t v v2 : Tensor) (n n2 : String) (ra rb : Nat)
    (ha : tfVariable s t n true = (s1, ra))
    (hb : tfVariableFromVar s1 ra n2 = some (s2, rb))
    (h3 : assign s2 ra v = .ok s3)
    (h4 : assign s2 rb v2 = .ok s4) :
    varValue s2 ra = some t.data ∧ varValue s2 rb = some t.data ∧
    varValue s3 rb = varValue s2 rb ∧ varValue s4 ra = varValue s2 ra := by
  unfold tfVariable at ha
  injection ha with hs1 hra
  subst hs1
  subst hra
  unfold tfVariableFromVar at hb
  rw [store_get_concat] at hb
  simp only [Option.map_some'] at hb
  injection hb with hpair
  injection hpair with hs2 hrb
  subst hs2
  subst hrb
  have hlen : (s ++ [(⟨n, t.dtype, t.shape, t.data, true⟩ : VarCell)]).length
      = s.length + 1 := by simp
  have hne : (s ++ [(⟨n, t.dtype, t.shape, t.data, true⟩ : VarCell)]).length
      ≠ s.length := by omega
  refine ⟨?_, ?_, ?_, ?_⟩
  · unfold varValue
    rw [store_get_append_lt _ _ _ (by omega), store_get_concat]
    rfl
  · unfold varValue
    rw [store_get_concat]
    rfl
  · unfold varValue
    rw [assign_frame h3 hne]
  · unfold varValue
    rw [assign_frame h4 (fun he => hne he.symm)]

/-- Witness for C8 at the notebook cell `a = tf.Variable(1.0);
b = tf.Variable(a); a.assign(2.0)`: afterwards `a` is `2.0` while `b`
is still `1.0` (and an assign to `b` would likewise leave `a` alone). -/
theorem variable_duplication_independent_witness :
    (tfVariable [] scalar1 "Variable" true =
      ([⟨ "Variable", .float32, [], [.vf 1], true⟩], 0)) ∧
    (tfVariableFromVar [⟨ "Variable", .float32, [], [.vf 1], true⟩] 0 "Variable" =
      some ([⟨ "Variable", .float32, [], [.vf 1], true⟩,
             ⟨ "Variable", .float32, [], [.vf 1], true⟩], 1)) ∧
    (assign [⟨ "Variable", .float32, [], [.vf 1], true⟩,
             ⟨ "Variable", .float32, [], [.vf 1], true⟩] 0 scalar2 =
      .ok [⟨ "Variable", .float32, [], [.vf 2], true⟩,
           ⟨ "Variable", .float32, [], [.vf 1], true⟩]) ∧
    (assign [⟨ "Variable", .float32, [], [.vf 1], true⟩,
             ⟨ "Variable", .float32, [], [.vf 1], true⟩] 1 scalar3 =
      .ok [⟨ "Variable", .float32, [], [.vf 1], true⟩,
           ⟨ "Variable", .float32, [], [.vf 3], true⟩]) ∧
    (varValue [⟨ "Variable", .float32, [], [.vf 1], true⟩,
               ⟨ "Variable", .float32, [], [.vf 1], true⟩] 0 = some scalar1.data ∧
     varValue [⟨ "Variable", .float32, [], [.vf 1], true⟩,
               ⟨ "Variable", .float32, [], [.vf 1], true⟩] 1 = some scalar1.data ∧
     varValue [⟨ "Variable", .float32, [], [.vf 2], true⟩,
               ⟨ "Variable", .float32, [], [.vf 1], true⟩] 1 =
       varValue [⟨ "Variable", .float32, [], [.vf 1], true⟩,
                 ⟨ "Variable", .float32, [], [.vf 1], true⟩] 1 ∧
     varValue [⟨ "Variable", .float32, [], [.vf 1], true⟩,
               ⟨ "Variable", .float32, [], [.vf 3], true⟩] 0 =
       varValue [⟨ "Variable", .float32, [], [.vf 1], true⟩,
                 ⟨ "Variable", .float32, [], [.vf 1], true⟩] 0) := by
  refine ⟨by decide, by decide, by decide, by decide, ?_⟩
  exact variable_duplication_independent []
    [⟨ "Variable", .float32, [], [.vf 1], true⟩]
    [⟨ "Variable", .float32, [], [.vf 1], true⟩,
     ⟨ "Variable", .float32, [], [.vf 1], true⟩]
    [⟨ "Variable", .float32, [], [.vf 2], true⟩,
     ⟨ "Variable", .float32, [], [.vf 1], true⟩]
    [⟨ "Variable", .float32, [], [.vf 1], true⟩,
     ⟨ "Variable", .float32, [], [.vf 3], true⟩]
    scalar1 scalar2 scalar3 "Variable" "Variable" 0 1
    (by decide) (by decide) (by decide) (by decide)

/-- C10: two distinct variables may carry the same name; equal names do
not imply equal values; and `==` on two same-shaped variables yields an
elementwise boolean tensor (of the operands' shape), not one boolean.
The concrete parts are the notebook's `a`/`b` pair, both named
`my_variable` with different values, where `a == b` is the 2x2
all-False tensor. -/
theorem varEq_elementwise_and_naming :
    (∀ (s : Store) (r1 r2 : Nat) (c1 c2 : VarCell),
      s.get? r1 = some c1 → s.get? r2 = some c2 → c1.shape = c2.shape →
      varEq s r1 r2 =
        some ⟨.boolean, c1.shape,
          List.zipWith (fun a b => Val.vb (a = b)) c1.data c2.data⟩) ∧
    ((namedStore.get? 0).map VarCell.name = (namedStore.get? 1).map VarCell.name) ∧
    (varValue namedStore 0 ≠ varValue namedStore 1) ∧
    varEq namedStore 0 1 =
      some ⟨.boolean, [2, 2], [.vb false, .vb false, .vb false, .vb false]⟩ := by
  refine ⟨?_, by decide, by decide, by decide⟩
  intro s r1 r2 c1 c2 h1 h2 hsh
  unfold varEq
  rw [h1, h2]
  dsimp only
  rw [if_pos hsh]

/-- Witness for C10: the elementwise-comparison statement applied to
the notebook's two same-named variables. -/
theorem varEq_elementwise_and_naming_witness :
    (namedStore.get? 0 =
      some ⟨ "my_variable", .float32, [2, 2], [.vf 1, .vf 2, .vf 3, .vf 4], true⟩) ∧
    (namedStore.get? 1 =
      some ⟨ "my_variable", .float32, [2, 2], [.vf 2, .vf 3, .vf 4, .vf 5], true⟩) ∧
    varEq namedStore 0 1 =
      some ⟨.boolean, [2, 2],
        List.zipWith (fun (a b : Val) => Val.vb (a = b))
          ([.vf 1, .vf 2, .vf 3, .vf 4] : List Val)
          ([.vf 2, .vf 3, .vf 4, .vf 5] : List Val)⟩ := by
  refine ⟨by decide, by decide, ?_⟩
  exact varEq_elementwise_and_naming.1 namedStore 0 1
    ⟨ "my_variable", .float32, [2, 2], [.vf 1, .vf 2, .vf 3, .vf 4], true⟩
    ⟨ "my_variable", .float32, [2, 2], [.vf 2, .vf 3, .vf 4, .vf 5], true⟩
    (by decide) (by decide) (by decide)

/-! ## Claim theorems for the Quickstart notebook -/

/-- C9: dividing a pixel in 0..255 by 255.0 lands in [0, 1], with 0
mapping to 0 and 255 mapping to 1; the whole-image preprocessing is the
elementwise map of that division. -/
theorem normalization_unit_interval :
    (∀ p : Nat, p ≤ 255 → 0 ≤ normalizePixel p ∧ normalizePixel p ≤ 1) ∧
    normalizePixel 0 = 0 ∧ normalizePixel 255 = 1 ∧
    (∀ img : List Nat, (∀ p ∈ img, p ≤ 255) →
      ∀ q ∈ normalizeImage img, 0 ≤ q ∧ q ≤ 1) := by
  have hmain : ∀ p : Nat, p ≤ 255 → 0 ≤ normalizePixel p ∧ normalizePixel p ≤ 1 := by
    intro p hp
    unfold normalizePixel
    constructor
    · exact div_nonneg (by exact_mod_cast Nat.zero_le p) (by norm_num)
    · rw [div_le_one (by norm_num)]
      exact_mod_cast hp
  refine ⟨hmain, by simp [normalizePixel], by simp [normalizePixel], ?_⟩
  intro img himg q hq
  obtain ⟨p, hp, rfl⟩ := List.mem_map.mp hq
  exact hmain p (himg p hp)

/-- Witness for C9 at pixel value 128. -/
theorem normalization_unit_interval_witness :
    ((128 : Nat) ≤ 255) ∧
    (0 ≤ normalizePixel 128 ∧ normalizePixel 128 ≤ 1) ∧
    (∀ p ∈ ([0, 255] : List Nat), p ≤ 255) ∧
    (∀ q ∈ normalizeImage [0, 255], 0 ≤ q ∧ q ≤ 1) := by
  refine ⟨by decide, ?_, by decide, ?_⟩
  · exact normalization_unit_interval.1 128 (by decide)
  · exact normalization_unit_interval.2.2.2 [0, 255] (by decide)

/-- C4: the beginner model is the in-order composition
Flatten, Dense(128, relu), Dropout(0.2), Dense(10); since the last
Dense layer was built with 10 units (10 weight rows and 10 biases), the
model's output is a vector of 10 logits for every input example, in
either training or inference mode. -/
theorem beginnerModel_ten_logits (W1 : List (List Rat)) (b1 : List Rat)
    (W2 : List (List Rat)) (b2 : List Rat) (training : Bool)
    (mask : List Bool) (img : List (List Rat))
    (hW2 : W2.length = 10) (hb2 : b2.length = 10) :
    (beginnerModel W1 b1 W2 b2 training mask img).length = 10 := by
  simp [beginnerModel, denseLayer, hW2, hb2]

/-- Witness for C4 on a 28x28 zero image with zero-initialized layers of
the architecture's sizes (Dense(128) over 784 inputs, Dense(10) over
128). -/
theorem beginnerModel_ten_logits_witness :
    (List.replicate 10 (List.replicate 128 (0 : Rat))).length = 10 ∧
    (List.replicate 10 (0 : Rat)).length = 10 ∧
    (beginnerModel (List.replicate 128 (List.replicate 784 0))
      (List.replicate 128 0) (List.replicate 10 (List.replicate 128 0))
      (List.replicate 10 0) false []
      (List.replicate 28 (List.replicate 28 0))).length = 10 := by
  refine ⟨by simp, by simp, ?_⟩
  exact beginnerModel_ten_logits
    (List.replicate 128 (List.replicate 784 0)) (List.replicate 128 0)
    (List.replicate 10 (List.replicate 128 0)) (List.replicate 10 0)
    false [] (List.replicate 28 (List.replicate 28 0))
    (by simp) (by simp)

theorem sum_map_exp_div (l : List Real) (S : Real) :
    (l.map fun x => Real.exp x / S).sum = (l.map Real.exp).sum / S := by
  induction l with
  | nil => simp
  | cons a l ih => simp [ih, add_div]

/-- C5: softmax of any (nonempty) logits vector is a probability
vector: every entry is in [0, 1] and the entries sum to 1 (float32
arithmetic idealized as exact real arithmetic). -/
theorem softmax_probability_vector (xs : List Real) (hne : xs ≠ []) :
    (∀ y ∈ softmax xs, 0 ≤ y ∧ y ≤ 1) ∧ (softmax xs).sum = 1 := by
  have hpos : ∀ z ∈ xs.map Real.exp, 0 < z := by
    intro z hz
    obtain ⟨x, _, rfl⟩ := List.mem_map.mp hz
    exact Real.exp_pos x
  have hS : 0 < (xs.map Real.exp).sum :=
    List.sum_pos (xs.map Real.exp) hpos (by simp [hne])
  constructor
  · intro y hy
    obtain ⟨x, hx, rfl⟩ := List.mem_map.mp hy
    refine ⟨div_nonneg (Real.exp_pos x).le hS.le, ?_⟩
    rw [div_le_one hS]
    exact List.single_le_sum (fun z hz => (hpos z hz).le) _
      (List.mem_map_of_mem Real.exp hx)
  · unfold softmax
    rw [sum_map_exp_div]
    exact div_self hS.ne'

/-- Witness for C5 at the one-element logits vector `[0]`. -/
theorem softmax_probability_vector_witness :
    (([(0 : Real)] : List Real) ≠ []) ∧
    (∀ y ∈ softmax [(0 : Real)], 0 ≤ y ∧ y ≤ 1) ∧
    (softmax [(0 : Real)]).sum = 1 := by
  refine ⟨by simp, ?_, ?_⟩
  · exact (softmax_probability_vector [0] (by simp)).1
  · exact (softmax_probability_vector [0] (by simp)).2

/-! ## Training-loop lemmas -/

theorem runEpochs_snoc (ops : TFOps) (t e : List Batch) :
    ∀ (n : Nat) (s : ExpState),
      runEpochs ops t e (n + 1) s =
        ((runEpoch ops t e (runEpochs ops t e n s).1).1,
          (runEpochs ops t e n s).2 ++
            [(runEpoch ops t e (runEpochs ops t e n s).1).2]) := by
  intro n
  induction n with
  | zero => intro s; simp [runEpochs]
  | succ n ih =>
    intro s
    have hdef : runEpochs ops t e (n + 1 + 1) s =
        ((runEpochs ops t e (n + 1) (runEpoch ops t e s).1).1,
          (runEpoch ops t e s).2 ::
            (runEpochs ops t e (n + 1) (runEpoch ops t e s).1).2) := rfl
    have hdef2 : runEpochs ops t e (n + 1) s =
        ((runEpochs ops t e n (runEpoch ops t e s).1).1,
          (runEpoch ops t e s).2 ::
            (runEpochs ops t e n (runEpoch ops t e s).1).2) := rfl
    rw [hdef, ih ((runEpoch ops t e s).1), hdef2]
    simp

theorem runEpochs_length (ops : TFOps) (t e : List Batch) :
    ∀ (n : Nat) (s : ExpState), (runEpochs ops t e n s).2.length = n := by
  intro n
  induction n with
  | zero => intro s; rfl
  | succ n ih =>
    intro s
    have hdef : runEpochs ops t e (n + 1) s =
        ((runEpochs ops t e n (runEpoch ops t e s).1).1,
          (runEpoch ops t e s).2 ::
            (runEpochs ops t e n (runEpoch ops t e s).1).2) := rfl
    rw [hdef]
    simp [ih]

theorem foldRange_eq_runEpochs (ops : TFOps) (t e : List Batch) :
    ∀ (n : Nat) (s : ExpState),
      (List.range n).foldl
        (fun acc _ =>
          let step := runEpoch ops t e acc.1
          (step.1, acc.2 ++ [step.2])) (s, []) =
        runEpochs ops t e n s := by
  intro n
  induction n with
  | zero => intro s; rfl
  | succ n ih =>
    intro s
    rw [List.range_succ, List.foldl_append, ih s, runEpochs_snoc]
    simp

theorem foldTrain_train_loss (ops : TFOps) :
    ∀ (t : List Batch) (s : ExpState),
      (t.foldl (fun st b => train_step ops st b.images b.labels) s).train_loss =
        ⟨s.train_loss.total + (epochBatchLosses ops t s).sum,
          s.train_loss.count + t.length⟩ := by
  intro t
  induction t with
  | nil => intro s; simp [epochBatchLosses]
  | cons b bs ih =>
    intro s
    rw [List.foldl_cons, ih]
    simp only [train_step, MeanMetric.update, epochBatchLosses, List.sum_cons,
      List.length_cons, MeanMetric.mk.injEq]
    constructor
    · ring
    · omega

theorem foldTrain_train_accuracy_count (ops : TFOps) :
    ∀ (t : List Batch) (s : ExpState),
      (t.foldl (fun st b => train_step ops st b.images b.labels) s).train_accuracy.count =
        s.train_accuracy.count + (t.map fun b => b.labels.length).sum := by
  intro t
  induction t with
  | nil => intro s; simp
  | cons b bs ih =>
    intro s
    rw [List.foldl_cons, ih]
    simp only [train_step, AccMetric.update, List.map_cons, List.sum_cons]
    omega

theorem foldTrain_test_metrics (ops : TFOps) :
    ∀ (t : List Batch) (s : ExpState),
      (t.foldl (fun st b => train_step ops st b.images b.labels) s).test_loss =
          s.test_loss ∧
      (t.foldl (fun st b => train_step ops st b.images b.labels) s).test_accuracy =
          s.test_accuracy := by
  intro t
  induction t with
  | nil => intro s; exact ⟨rfl, rfl⟩
  | cons b bs ih =>
    intro s
    rw [List.foldl_cons]
    exact ih (train_step ops s b.images b.labels)

theorem foldTest_train_metrics (ops : TFOps) :
    ∀ (e : List Batch) (s : ExpState),
      (e.foldl (fun st b => test_step ops st b.images b.labels) s).train_loss =
          s.train_loss ∧
      (e.foldl (fun st b => test_step ops st b.images b.labels) s).train_accuracy =
          s.train_accuracy ∧
      (e.foldl (fun st b => test_step ops st b.images b.labels) s).params =
          s.params := by
  intro e
  induction e with
  | nil => intro s; exact ⟨rfl, rfl, rfl⟩
  | cons b bs ih =>
    intro s
    rw [List.foldl_cons]
    exact ih (test_step ops s b.images b.labels)

theorem foldTest_test_loss_count (ops : TFOps) :
    ∀ (e : List Batch) (s : ExpState),
      (e.foldl (fun st b => test_step ops st b.images b.labels) s).test_loss.count =
        s.test_loss.count + e.length := by
  intro e
  induction e with
  | nil => intro s; simp
  | cons b bs ih =>
    intro s
    rw [List.foldl_cons, ih]
    simp only [test_step, MeanMetric.update, List.length_cons]
    omega

theorem foldTest_test_accuracy_count (ops : TFOps) :
    ∀ (e : List Batch) (s : ExpState),
      (e.foldl (fun st b => test_step ops st b.images b.labels) s).test_accuracy.count =
        s.test_accuracy.count + (e.map fun b => b.labels.length).sum := by
  intro e
  induction e with
  | nil => intro s; simp
  | cons b bs ih =>
    intro s
    rw [List.foldl_cons, ih]
    simp only [test_step, AccMetric.update, List.map_cons, List.sum_cons]
    omega

/-- C7: the expert loop runs exactly 5 epochs in sequence; each epoch
first resets the four metrics, then folds `train_step` over every
training batch, then folds `test_step` over every test batch; and each
`train_step` records in the training metrics the loss and predictions
computed from the parameters as they were when the tape ran, while its
resulting parameters are the optimizer-updated ones. -/
theorem expert_loop_structure :
    (∀ (ops : TFOps) (t e : List Batch) (s : ExpState),
      trainingLoop ops t e s = runEpochs ops t e 5 s) ∧
    (∀ (ops : TFOps) (t e : List Batch) (s : ExpState),
      (trainingLoop ops t e s).2.length = 5) ∧
    (∀ (ops : TFOps) (t e : List Batch) (s : ExpState),
      runEpoch ops t e s =
        (let s1 := resetMetrics s
         let s2 := t.foldl (fun st b => train_step ops st b.images b.labels) s1
         let s3 := e.foldl (fun st b => test_step ops st b.images b.labels) s2
         (s3, printLine s3))) ∧
    (∀ (ops : TFOps) (s : ExpState) (images : List (List Rat))
        (labels : List Nat),
      (train_step ops s images labels).train_loss =
        s.train_loss.update
          (ops.loss_object labels (images.map (ops.model s.params))) ∧
      (train_step ops s images labels).train_accuracy =
        s.train_accuracy.update labels (images.map (ops.model s.params)) ∧
      (train_step ops s images labels).params =
        (ops.apply_gradients s.opt s.params
          (ops.tapeGradient s.params images labels)).2) := by
  refine ⟨?_, ?_, ?_, ?_⟩
  · intro ops t e s
    exact foldRange_eq_runEpochs ops t e 5 s
  · intro ops t e s
    have h : trainingLoop ops t e s = runEpochs ops t e 5 s :=
      foldRange_eq_runEpochs ops t e 5 s
    rw [h]
    exact runEpochs_length ops t e 5 s
  · intro ops t e s
    rfl
  · intro ops s images labels
    exact ⟨rfl, rfl, rfl⟩

/-- C1 (amended): the epoch body resets all four metrics before
processing its batches, so the values printed at the end of an epoch
reflect only that epoch: the epoch's outcome is independent of the
metric values accumulated before it, the metric counts equal the
current epoch's batch (resp. example) counts, and the printed loss is
the mean of the current epoch's per-batch losses alone. -/
theorem epoch_metrics_current_epoch_only :
    (∀ (ops : TFOps) (t e : List Batch) (p o : List Rat)
        (m1 m2 m1' m2' : MeanMetric) (a1 a2 a1' a2' : AccMetric),
      runEpoch ops t e ⟨p, o, m1, a1, m2, a2⟩ =
        runEpoch ops t e ⟨p, o, m1', a1', m2', a2'⟩) ∧
    (∀ (ops : TFOps) (t e : List Batch) (s : ExpState),
      (runEpoch ops t e s).1.train_loss.count = t.length ∧
      (runEpoch ops t e s).1.test_loss.count = e.length ∧
      (runEpoch ops t e s).1.train_accuracy.count =
        (t.map fun b => b.labels.length).sum ∧
      (runEpoch ops t e s).1.test_accuracy.count =
        (e.map fun b => b.labels.length).sum) ∧
    (∀ (ops : TFOps) (t e : List Batch) (s : ExpState),
      (runEpoch ops t e s).2.loss =
        (epochBatchLosses ops t (resetMetrics s)).sum / (t.length : Rat)) := by
  refine ⟨?_, ?_, ?_⟩
  · intro ops t e p o m1 m2 m1' m2' a1 a2 a1' a2'
    rfl
  · intro ops t e s
    simp only [runEpoch]
    have hT := foldTrain_train_loss ops t (resetMetrics s)
    have hTA := foldTrain_train_accuracy_count ops t (resetMetrics s)
    have hTF := foldTrain_test_metrics ops t (resetMetrics s)
    have hEF := foldTest_train_metrics ops e
      (t.foldl (fun st b => train_step ops st b.images b.labels) (resetMetrics s))
    have hEL := foldTest_test_loss_count ops e
      (t.foldl (fun st b => train_step ops st b.images b.labels) (resetMetrics s))
    have hEA := foldTest_test_accuracy_count ops e
      (t.foldl (fun st b => train_step ops st b.images b.labels) (resetMetrics s))
    refine ⟨?_, ?_, ?_, ?_⟩
    · rw [hEF.1, hT]
      simp [resetMetrics, MeanMetric.reset_states]
    · rw [hEL, hTF.1]
      simp [resetMetrics, MeanMetric.reset_states]
    · rw [hEF.2.1, hTA]
      simp [resetMetrics, AccMetric.reset_states]
    · rw [hEA, hTF.2]
      simp [resetMetrics, AccMetric.reset_states]
  · intro ops t e s
    simp only [runEpoch, printLine]
    have hEF := foldTest_train_metrics ops e
      (t.foldl (fun st b => train_step ops st b.images b.labels) (resetMetrics s))
    rw [hEF.1, foldTrain_train_loss]
    simp [MeanMetric.result, resetMetrics, MeanMetric.reset_states]

/-- C1 counterexample: on a concrete instantiation (loss equals the
single parameter, each step increments it, one training batch, no test
batches) the code's loop prints per-epoch losses 0, 1, 2, 3, 4, while
the spec's accumulate-across-epochs reading would print 0, 1/2, 1,
3/2, 2: already at the second epoch the printed loss is not the value
accumulated over all epochs run so far. -/
theorem reset_vs_accum_counterexample :
    (trainingLoop cOps cTrain cTest cState).2.map EpochLog.loss
      = [0, 1, 2, 3, 4] ∧
    (trainingLoopSpecAccum cOps cTrain cTest cState).2.map EpochLog.loss
      = [0, 1/2, 1, 3/2, 2] ∧
    (trainingLoop cOps cTrain cTest cState).2.map EpochLog.loss ≠
      (trainingLoopSpecAccum cOps cTrain cTest cState).2.map EpochLog.loss := by
  have h1 : (trainingLoop cOps cTrain cTest cState).2.map EpochLog.loss
      = [0, 1, 2, 3, 4] := by
    norm_num [trainingLoop, EPOCHS, List.range_succ, runEpoch, resetMetrics,
      train_step, test_step, printLine, MeanMetric.reset_states,
      AccMetric.reset_states, MeanMetric.update, AccMetric.update,
      MeanMetric.result, AccMetric.result, countCorrect, argmaxIdx,
      cOps, cState, cTrain, cTest]
  have h2 : (trainingLoopSpecAccum cOps cTrain cTest cState).2.map EpochLog.loss
      = [0, 1/2, 1, 3/2, 2] := by
    norm_num [trainingLoopSpecAccum, EPOCHS, List.range_succ, runEpochSpecAccum,
      train_step, test_step, printLine, MeanMetric.update, AccMetric.update,
      MeanMetric.result, AccMetric.result, countCorrect, argmaxIdx,
      cOps, cState, cTrain, cTest]
  refine ⟨h1, h2, ?_⟩
  rw [h1, h2]
  simp only [ne_eq, List.cons.injEq]
  norm_num
